import Mathlib

/-!
Verification of the MJPEG camera streaming server (`rpi/camera_web/main.py`)
against its natural-language specification.

The Python module is shallowly embedded below.  Byte strings become
`List Nat`; the module-level `StreamingOutput` object becomes a record
updated by explicit state passing; the HTTP handler `do_GET` becomes a
pure function from the request path and an environment (the outcomes of
the external camera / filesystem / socket calls it performs) to the
response it writes plus the log entries it emits.  The `threading.Condition`
wait/notify hand-off of the streaming loop is modelled as a trace
semantics: a publish history `pubs : List Frame` records the successive
`StreamingOutput.write` calls, the ghost generation counter is the number
of publishes so far, and a reader blocked in `condition.wait()` is woken
at some generation `k` strictly greater than the generation `g` at which
its wait began (CPython conditions wake only on a `notify_all` issued
after the wait started), reading the frame current at that point.
-/

/-- A frame: an opaque byte sequence (one complete JPEG image). -/
abbrev Frame := List Nat

/-- Embedding of `class StreamingOutput`: the single shared cell holding
the latest frame.  `self.frame = None` initially; the `Condition` object
carries no data and is represented by the trace semantics below. -/
structure StreamingOutput where
  frame : Option Frame
  deriving Repr, DecidableEq

/-- `StreamingOutput.__init__`: `self.frame = None`. -/
def StreamingOutput.init : StreamingOutput := { frame := none }

/-- `StreamingOutput.write(self, buf)`: under the condition lock, store the
new frame and `notify_all()` the waiting readers. -/
def StreamingOutput.write (o : StreamingOutput) (buf : Frame) : StreamingOutput :=
  { o with frame := some buf }

/-- The sink state after a history `pubs` of `write` calls, starting from
the freshly constructed object. -/
def sinkAfter (pubs : List Frame) : StreamingOutput :=
  pubs.foldl StreamingOutput.write StreamingOutput.init

/-- Ghost generation counter: the number of frames published so far.  The
spec glossary: "a monotonically increasing counter marking how many frames
have been published".  In the code it is advanced implicitly by each
`write` / `notify_all`. -/
def generation (pubs : List Frame) : Nat := pubs.length

/-- The frame held by the sink once the first `k` publishes of the history
have happened. -/
def currentFrame (pubs : List Frame) (k : Nat) : Option Frame :=
  (sinkAfter (pubs.take k)).frame

/-- Embedding of the reader side of the streaming loop
(`with output.condition: output.condition.wait(); frame = output.frame`).
The reader began waiting at generation `g`; the nondeterministic wake/read
point `k` (resolved here as an explicit parameter) must lie strictly after
`g` — `Condition.wait()` returns only after a `notify_all` from a `write`
that happens after the wait begins — and within the publish history.  It
returns the frame current at `k` together with `k`, or `none` when `k` is
not a legal wake point (in the program the reader simply stays blocked). -/
def awaitNext (pubs : List Frame) (g k : Nat) : Option (Frame × Nat) :=
  if g < k ∧ k ≤ pubs.length then
    (currentFrame pubs k).map (fun f => (f, k))
  else
    none

lemma getLast?_cons_some (b : Frame) (u : List Frame) :
    ∃ x, (b :: u).getLast? = some x := by
  induction u generalizing b with
  | nil => exact ⟨b, rfl⟩
  | cons c w ih =>
    obtain ⟨x, hx⟩ := ih c
    exact ⟨x, by rw [List.getLast?_cons_cons, hx]⟩

lemma foldl_write_frame (ps : List Frame) (o : StreamingOutput) :
    (ps.foldl StreamingOutput.write o).frame = (ps.getLast?).elim o.frame some := by
  induction ps generalizing o with
  | nil => rfl
  | cons a t ih =>
    cases t with
    | nil => simp [StreamingOutput.write]
    | cons b u =>
      rw [List.foldl_cons, ih, List.getLast?_cons_cons]
      obtain ⟨x, hx⟩ := getLast?_cons_some b u
      rw [hx]
      rfl

lemma sinkAfter_frame (ps : List Frame) :
    (sinkAfter ps).frame = ps.getLast? := by
  rw [sinkAfter, foldl_write_frame]
  cases h : ps.getLast? <;> simp [StreamingOutput.init]

lemma currentFrame_eq_getElem (pubs : List Frame) (k : Nat)
    (h1 : 1 ≤ k) (h2 : k ≤ pubs.length) :
    currentFrame pubs k = pubs[k - 1]? := by
  rw [currentFrame, sinkAfter_frame, List.getLast?_eq_getElem?, List.getElem?_take,
    List.length_take, Nat.min_eq_left h2, if_pos (show k - 1 < k by omega)]

/-- Log levels used by the module (`logging.info` / `warning` / `error`). -/
inductive LogLevel where
  | info
  | warning
  | error
  deriving Repr, DecidableEq

/-- One emitted log record. -/
structure LogEntry where
  level : LogLevel
  msg : String
  deriving Repr, DecidableEq

/-- Abstract injective byte encoding of a string (`str.encode("utf-8")`).
Every literal whose exact bytes matter in the claims is ASCII, where the
code point equals the UTF-8 byte, so code points stand in for bytes. -/
def encodeStr (s : String) : List Nat := s.toList.map Char.toNat

/-- The fixed fallback body returned when the HTML template file is
missing (the string literal in `load_html_template`). -/
def fallbackHtml : String :=
  "<html><body><h1>Error: Template not found.</h1></body></html>"

/-- Embedding of `load_html_template(filename)`.  The filesystem read is
an input: `some s` when `open(...).read()` yields `s`, `none` when the
file is absent (`FileNotFoundError`).  Returns the template text together
with the log entries emitted; the missing-file case returns the fallback
body instead of raising. -/
def load_html_template (filename : String) (fileContents : Option String) :
    String × List LogEntry :=
  match fileContents with
  | some s => (s, [])
  | none =>
      (fallbackHtml,
       [{ level := LogLevel.error,
          msg := "HTML template file " ++ filename ++ " not found." }])

/-- Decides whether `needle` is a prefix of `hay` (character lists). -/
def listStartsWith : List Char → List Char → Bool
  | [], _ => true
  | _ :: _, [] => false
  | a :: t, b :: u => a == b && listStartsWith t u

/-- Decides whether `needle` occurs contiguously inside `hay`: the Python
substring test `needle in hay`. -/
def listContainsSub (needle : List Char) : List Char → Bool
  | [] => listStartsWith needle []
  | b :: u => listStartsWith needle (b :: u) || listContainsSub needle u

/-- Python `sub in s` on strings. -/
def strIn (sub s : String) : Bool := listContainsSub sub.toList s.toList

/-- Embedding of `libcamera.Transform(hflip=..., vflip=...)`: just the two
mirroring booleans the program requests. -/
structure Transform where
  hflip : Bool
  vflip : Bool
  deriving Repr, DecidableEq

/-- The argparse choices of the `--flip` flag. -/
def flipChoices : List String := ["none", "h", "v", "hv"]

/-- Embedding of `parser.parse_args()` for the one flag: an omitted flag
yields the default `"none"`; a supplied value outside the enumerated
choices makes argparse reject the command line (`none` here). -/
def parseFlip (arg : Option String) : Option String :=
  match arg with
  | none => some "none"
  | some v => if v ∈ flipChoices then some v else none

/-- Embedding of
`Transform(hflip="h" in args.flip, vflip="v" in args.flip)`. -/
def mkTransform (flip : String) : Transform :=
  { hflip := strIn "h" flip, vflip := strIn "v" flip }

/-- Embedding of `get_local_ip()`.  The socket experiment
(`connect(("8.8.8.8", 80)); getsockname()[0]`) is external; its outcome is
the input: `Except.ok ip` when it returns the local address `ip`,
`Except.error e` when any exception is raised inside the `try`. -/
def get_local_ip (attempt : Except String String) : String :=
  match attempt with
  | Except.ok ip => ip
  | Except.error _ => "127.0.0.1"

/-- An HTTP response as the handler assembles it: status code, the headers
passed to `send_header`, and the body bytes written to `wfile`. -/
structure HttpResponse where
  status : Nat
  headers : List (String × String)
  body : List Nat
  deriving Repr, DecidableEq

/-- The bytes written for one frame of the `/stream.mjpg` loop, in program
order: `wfile.write(b"--FRAME\r\n")`, then the two buffered
`send_header` lines flushed by `end_headers()` (which appends the blank
line), then the raw frame bytes, then `wfile.write(b"\r\n")`. -/
def framePart (f : Frame) : List Nat :=
  encodeStr "--FRAME\r\n"
    ++ encodeStr "Content-Type: image/jpeg\r\n"
    ++ encodeStr ("Content-Length: " ++ toString f.length ++ "\r\n")
    ++ encodeStr "\r\n"
    ++ f
    ++ encodeStr "\r\n"

/-- Per-request environment: the outcomes of everything external that
`StreamingHandler.do_GET` touches.  `timestamp` is
`datetime.now().strftime("%Y%m%d_%H%M%S")`; `snapshotResult` is the
outcome of `os.makedirs` + `picam2.capture_file` (error message inside
`Except.error`); `streamFrames` is the sequence of frames the
wait/read loop obtains before the connection write fails; `streamError`
is the message of the exception that ends the streaming loop. -/
structure GetEnv where
  timestamp : String
  snapshotResult : Except String Unit
  streamFrames : List Frame
  streamError : String
  deriving Repr

/-- Embedding of `StreamingHandler.do_GET`.  `tmpl` is the module-level
`HTML_TEMPLATE` constant; `path` is `self.path`, the request target
including any query string.  Returns the response written plus the log
entries emitted while handling the request. -/
def do_GET (tmpl : String) (env : GetEnv) (path : String) :
    HttpResponse × List LogEntry :=
  if path = "/" then
    ({ status := 301, headers := [("Location", "/index.html")], body := [] }, [])
  else if path = "/index.html" then
    let content := encodeStr tmpl
    ({ status := 200,
       headers := [("Content-Type", "text/html"),
                   ("Content-Length", toString content.length)],
       body := content }, [])
  else if path = "/stream.mjpg" then
    ({ status := 200,
       headers := [("Age", "0"),
                   ("Cache-Control", "no-cache, private"),
                   ("Pragma", "no-cache"),
                   ("Content-Type", "multipart/x-mixed-replace; boundary=FRAME")],
       body := env.streamFrames.flatMap framePart },
     [{ level := LogLevel.warning,
        msg := "Removed streaming client: " ++ env.streamError }])
  else if path = "/snapshot" then
    let filename := "snapshot_" ++ env.timestamp ++ ".jpg"
    match env.snapshotResult with
    | Except.ok _ =>
        ({ status := 200, headers := [], body := encodeStr "Snapshot saved." },
         [{ level := LogLevel.info, msg := "Snapshot saved to " ++ filename }])
    | Except.error e =>
        ({ status := 500, headers := [], body := encodeStr "Failed to save snapshot." },
         [{ level := LogLevel.error, msg := "Error capturing snapshot: " ++ e }])
  else
    ({ status := 404, headers := [], body := [] }, [])

/-- The process-wide mutable state the handlers share: the module constant
`HTML_TEMPLATE` (set once at import) and the `StreamingOutput` singleton
`output`. -/
structure ServerProc where
  htmlTemplate : String
  output : StreamingOutput
  deriving Repr, DecidableEq

/-- Process state right after module load and `output = StreamingOutput()`:
`HTML_TEMPLATE = load_html_template("index.html")` with the template file
contents as found on disk at startup. -/
def initProc (tmplFile : Option String) : ServerProc :=
  { htmlTemplate := (load_html_template "index.html" tmplFile).1,
    output := StreamingOutput.init }

/-- Events a running process experiences: the capture callback publishing
a frame into the sink, or a connection issuing a GET request. -/
inductive Event where
  | publish (buf : Frame)
  | get (env : GetEnv) (path : String)

/-- One step of the process: publishes update the shared sink; GET
requests produce a response (and logs) from the current state without
modifying it. -/
def step (s : ServerProc) (e : Event) :
    ServerProc × Option (HttpResponse × List LogEntry) :=
  match e with
  | Event.publish buf => ({ s with output := s.output.write buf }, none)
  | Event.get env path => (s, some (do_GET s.htmlTemplate env path))

/-- The process state after a sequence of events. -/
def run (s : ServerProc) (es : List Event) : ServerProc :=
  es.foldl (fun s e => (step s e).1) s

lemma do_GET_snapshot_ok (tmpl ts : String) (sf : List Frame) (se : String) :
    do_GET tmpl { timestamp := ts, snapshotResult := Except.ok (),
                  streamFrames := sf, streamError := se } "/snapshot" =
      ({ status := 200, headers := [], body := encodeStr "Snapshot saved." },
       [{ level := LogLevel.info,
          msg := "Snapshot saved to " ++ ("snapshot_" ++ ts ++ ".jpg") }]) := rfl

lemma do_GET_snapshot_err (tmpl ts e : String) (sf : List Frame) (se : String) :
    do_GET tmpl { timestamp := ts, snapshotResult := Except.error e,
                  streamFrames := sf, streamError := se } "/snapshot" =
      ({ status := 500, headers := [], body := encodeStr "Failed to save snapshot." },
       [{ level := LogLevel.error, msg := "Error capturing snapshot: " ++ e }]) := rfl

lemma do_GET_index (tmpl : String) (env : GetEnv) :
    do_GET tmpl env "/index.html" =
      ({ status := 200,
         headers := [("Content-Type", "text/html"),
                     ("Content-Length", toString (encodeStr tmpl).length)],
         body := encodeStr tmpl }, []) := rfl

lemma unmatched_404 (tmpl : String) (env : GetEnv) (path : String)
    (h1 : path ≠ "/") (h2 : path ≠ "/index.html")
    (h3 : path ≠ "/stream.mjpg") (h4 : path ≠ "/snapshot") :
    do_GET tmpl env path =
      ({ status := 404, headers := [], body := [] }, []) := by
  rw [do_GET, if_neg h1, if_neg h2, if_neg h3, if_neg h4]

lemma query_path_ne (q r : String)
    (h2 : ¬ (['/', '?'] : List Char) = r.data.take 2) : "/?" ++ q ≠ r := by
  intro h
  exact h2 (congrArg (fun s => s.data.take 2) h)

lemma step_htmlTemplate (s : ServerProc) (e : Event) :
    ((step s e).1).htmlTemplate = s.htmlTemplate := by
  cases e <;> rfl

lemma run_htmlTemplate (es : List Event) (s : ServerProc) :
    (run s es).htmlTemplate = s.htmlTemplate := by
  induction es generalizing s with
  | nil => rfl
  | cons e t ih =>
      rw [run, List.foldl_cons]
      have h := ih (step s e).1
      rw [run] at h
      rw [h, step_htmlTemplate]

/-- C1: the Frame Sink's (ghost) generation counter advances by one on
every publish and the publish makes the new frame current; any value a
reader obtains from `awaitNext` after last seeing generation `g` is a
frame that was published strictly after generation `g` (its publish index
`k'` satisfies `g < k'`): no stale repeats, and no wake delivers anything
but a published frame. -/
theorem frameSink_generation_awaitNext (pubs : List Frame) (buf f : Frame)
    (g k k' : Nat) (h : awaitNext pubs g k = some (f, k')) :
    (generation (pubs ++ [buf]) = generation pubs + 1 ∧
     (sinkAfter (pubs ++ [buf])).frame = some buf) ∧
    k' = k ∧ g < k' ∧ pubs[k' - 1]? = some f := by
  refine ⟨⟨by simp [generation], by rw [sinkAfter_frame, List.getLast?_concat]⟩, ?_⟩
  simp only [awaitNext] at h
  by_cases hcond : g < k ∧ k ≤ pubs.length
  · rw [if_pos hcond] at h
    cases hc : currentFrame pubs k with
    | none => rw [hc] at h; simp at h
    | some x =>
        rw [hc] at h
        simp only [Option.map_some'] at h
        have hx : (x, k) = (f, k') := Option.some.inj h
        have hxf : x = f := congrArg Prod.fst hx
        have hkk : k = k' := congrArg Prod.snd hx
        subst hkk
        refine ⟨rfl, hcond.1, ?_⟩
        have hget := currentFrame_eq_getElem pubs k (by omega) hcond.2
        rw [hc] at hget
        exact hxf ▸ hget.symm
  · rw [if_neg hcond] at h
    simp at h

/-- Witness for C1 at a concrete publish history. -/
theorem frameSink_generation_awaitNext_witness :
    awaitNext [[7], [9]] 0 2 = some ([9], 2) ∧
    ((generation ([[7], [9]] ++ [[4]]) = generation [[7], [9]] + 1 ∧
      (sinkAfter ([[7], [9]] ++ [[4]])).frame = some [4]) ∧
     2 = 2 ∧ 0 < 2 ∧ ([[7], [9]] : List Frame)[2 - 1]? = some [9]) :=
  ⟨by decide, frameSink_generation_awaitNext [[7], [9]] [4] [9] 0 2 2 (by decide)⟩

/-- C2: latest-wins hand-off.  If `F2` is published immediately after `F1`
while a reader that last saw generation `generation ps` is still waiting,
a wake after both publishes delivers exactly `F2` (never `F1`, never
both); and any frame any reader ever obtains is one of the frames that
were published whole — never a torn or partial frame. -/
theorem latestWins (ps : List Frame) (F1 F2 : Frame) :
    awaitNext (ps ++ [F1, F2]) (generation ps) (generation ps + 2) =
      some (F2, generation ps + 2) ∧
    ∀ (pubs : List Frame) (g k : Nat) (f : Frame) (k' : Nat),
      awaitNext pubs g k = some (f, k') → f ∈ pubs := by
  constructor
  · have hlen : (ps ++ [F1, F2]).length = generation ps + 2 := by
      simp [generation]
    rw [awaitNext, if_pos ⟨by omega, le_of_eq hlen.symm⟩]
    simp only [currentFrame]
    rw [List.take_of_length_le (le_of_eq hlen), sinkAfter_frame]
    rw [show ps ++ [F1, F2] = (ps ++ [F1]) ++ [F2] by simp, List.getLast?_concat]
    rfl
  · intro pubs g k f k' h
    simp only [awaitNext] at h
    by_cases hcond : g < k ∧ k ≤ pubs.length
    · rw [if_pos hcond] at h
      cases hc : currentFrame pubs k with
      | none => rw [hc] at h; simp at h
      | some x =>
          rw [hc] at h
          simp only [Option.map_some'] at h
          have hxf : x = f := congrArg Prod.fst (Option.some.inj h)
          have hget := currentFrame_eq_getElem pubs k (by omega) hcond.2
          rw [hc] at hget
          exact List.getElem?_mem (hxf ▸ hget.symm)
    · rw [if_neg hcond] at h
      simp at h

/-- Witness for C2 at a concrete pair of frames. -/
theorem latestWins_witness :
    awaitNext ([] ++ [[1], [2]]) (generation ([] : List Frame))
        (generation ([] : List Frame) + 2) =
      some ([2], generation ([] : List Frame) + 2) ∧
    ([2] : Frame) ∈ [[1], [2]] :=
  ⟨(latestWins [] [1] [2]).1,
   (latestWins [] [1] [2]).2 [[1], [2]] 0 2 [2] 2 (by decide)⟩

/-- C3: a GET for `/stream.mjpg` is answered 200 with exactly the four
advertised headers, and for every frame delivered on the connection the
bytes written are, in program order: the boundary marker, the
`Content-Type: image/jpeg` part header, a `Content-Length` part header
whose value is the frame's byte length, the blank line ending the part
headers, the raw frame bytes, and a trailing CRLF. -/
theorem stream_mjpg_response (tmpl : String) (env : GetEnv) :
    (do_GET tmpl env "/stream.mjpg").1.status = 200 ∧
    (do_GET tmpl env "/stream.mjpg").1.headers =
      [("Age", "0"), ("Cache-Control", "no-cache, private"), ("Pragma", "no-cache"),
       ("Content-Type", "multipart/x-mixed-replace; boundary=FRAME")] ∧
    (do_GET tmpl env "/stream.mjpg").1.body =
      env.streamFrames.flatMap (fun f =>
        encodeStr "--FRAME\r\n"
          ++ encodeStr "Content-Type: image/jpeg\r\n"
          ++ encodeStr ("Content-Length: " ++ toString f.length ++ "\r\n")
          ++ encodeStr "\r\n"
          ++ f
          ++ encodeStr "\r\n") :=
  ⟨rfl, rfl, rfl⟩

/-- C4, counterexample: after one publish the sink currently holds that
frame, yet a reader that attaches at that generation obtains nothing
without a further publish — the loop enters `condition.wait()` before its
first read, so the current frame cannot be polled without blocking. -/
theorem firstAttach_cannot_poll :
    (sinkAfter [[1]]).frame = some [1] ∧
    awaitNext [[1]] (generation [[1]]) 1 = none ∧
    awaitNext [[1]] (generation [[1]]) 0 = none := by decide

/-- C4, amended: a reader that attaches when the sink is at generation
`generation pubs` receives nothing at any wake point within that history:
its first read always blocks until a strictly later publish, and it would
wait forever if the Capture Source never published again (no deadlock in
practice only because the camera publishes continuously). -/
theorem firstAttach_always_blocks (pubs : List Frame) (k : Nat) :
    awaitNext pubs (generation pubs) k = none := by
  rw [awaitNext, if_neg]
  rw [generation]
  intro hcond
  omega

/-- C5, counterexample: a query string makes the request target fail the
exact `self.path == "/"` comparison, so `GET /?a=1` is answered 404, not
301. -/
theorem root_query_string_404 :
    (do_GET "t" { timestamp := "20250101_000000", snapshotResult := Except.ok (),
                  streamFrames := [], streamError := "" } "/?a=1").1.status = 404 := by
  decide

/-- C5, amended: a GET whose target is exactly `/` is answered 301 with
`Location: /index.html`; appending any query string (target `/?…`) makes
the exact match fail and the request is answered 404. -/
theorem root_redirect (tmpl : String) (env : GetEnv) (q : String) :
    (do_GET tmpl env "/").1.status = 301 ∧
    (do_GET tmpl env "/").1.headers = [("Location", "/index.html")] ∧
    (do_GET tmpl env ("/?" ++ q)).1.status = 404 := by
  refine ⟨rfl, rfl, ?_⟩
  rw [unmatched_404 tmpl env ("/?" ++ q)
    (query_path_ne q "/" (by decide))
    (query_path_ne q "/index.html" (by decide))
    (query_path_ne q "/stream.mjpg" (by decide))
    (query_path_ne q "/snapshot" (by decide))]

/-- C6: `GET /snapshot` is answered 200 with body exactly
`"Snapshot saved."` iff the capture-and-write succeeded, and on any
failure it is answered 500 with body exactly `"Failed to save snapshot."`
with the error logged at error level; handling the request never changes
the shared process state, and the snapshot outcome has no effect on any
other route's response. -/
theorem snapshot_response (tmpl : String) (env : GetEnv) :
    (((do_GET tmpl env "/snapshot").1.status = 200 ∧
      (do_GET tmpl env "/snapshot").1.body = encodeStr "Snapshot saved.") ↔
      env.snapshotResult = Except.ok ()) ∧
    (∀ e, env.snapshotResult = Except.error e →
      (do_GET tmpl env "/snapshot").1.status = 500 ∧
      (do_GET tmpl env "/snapshot").1.body = encodeStr "Failed to save snapshot." ∧
      { level := LogLevel.error,
        msg := "Error capturing snapshot: " ++ e } ∈ (do_GET tmpl env "/snapshot").2) ∧
    (∀ s : ServerProc, (step s (Event.get env "/snapshot")).1 = s) ∧
    (∀ env2 : GetEnv, env2.timestamp = env.timestamp →
      env2.streamFrames = env.streamFrames → env2.streamError = env.streamError →
      ∀ p, p ≠ "/snapshot" → do_GET tmpl env2 p = do_GET tmpl env p) := by
  obtain ⟨ts, res, sf, se⟩ := env
  refine ⟨?_, ?_, fun s => rfl, ?_⟩
  · cases res with
    | ok u =>
        cases u
        rw [do_GET_snapshot_ok]
        simp
    | error e =>
        rw [do_GET_snapshot_err]
        simp
  · intro e he
    cases res with
    | ok u => exact absurd he (by simp)
    | error e2 =>
        have : e2 = e := by
          have := congrArg (fun x => match x with
            | Except.error m => m
            | Except.ok _ => e2) he
          exact this
        subst this
        rw [do_GET_snapshot_err]
        exact ⟨rfl, rfl, List.mem_cons_self _ _⟩
  · intro env2 h1 h2 h3 p hp
    obtain ⟨ts2, res2, sf2, se2⟩ := env2
    simp only at h1 h2 h3
    subst h1; subst h2; subst h3
    by_cases hA : p = "/"
    · subst hA; rfl
    · by_cases hB : p = "/index.html"
      · subst hB; rfl
      · by_cases hC : p = "/stream.mjpg"
        · subst hC; rfl
        · rw [unmatched_404 tmpl _ p hA hB hC hp, unmatched_404 tmpl _ p hA hB hC hp]

/-- Witness for C6 at a concrete failing capture. -/
theorem snapshot_response_witness :
    Except.error "boom" = (Except.error "boom" : Except String Unit) ∧
    (do_GET "t" { timestamp := "ts", snapshotResult := Except.error "boom",
                  streamFrames := [], streamError := "" } "/snapshot").1.status = 500 :=
  ⟨rfl,
   ((snapshot_response "t" { timestamp := "ts", snapshotResult := Except.error "boom",
                             streamFrames := [], streamError := "" }).2.1 "boom" rfl).1⟩

/-- C7: when the template file is missing, `load_html_template` returns
the fixed fallback HTML body and emits an error log entry instead of
raising (it is a total function, so module load cannot fail there), and a
process started in that state answers `GET /index.html` with status 200
and the fallback body. -/
theorem template_missing_fallback (env : GetEnv) :
    (load_html_template "index.html" none).1 = fallbackHtml ∧
    { level := LogLevel.error,
      msg := "HTML template file index.html not found." } ∈
        (load_html_template "index.html" none).2 ∧
    (do_GET (initProc none).htmlTemplate env "/index.html").1.status = 200 ∧
    (do_GET (initProc none).htmlTemplate env "/index.html").1.body =
      encodeStr fallbackHtml :=
  ⟨rfl, List.mem_cons_self _ _, rfl, rfl⟩

/-- C8: the `--flip` flag maps to the capture transform exactly as
documented: `hv` requests both mirrorings, `h` only horizontal, `v` only
vertical, `none` neither, and an omitted flag defaults to `none`. -/
theorem flip_transform_mapping :
    parseFlip none = some "none" ∧
    mkTransform "hv" = { hflip := true, vflip := true } ∧
    mkTransform "h" = { hflip := true, vflip := false } ∧
    mkTransform "v" = { hflip := false, vflip := true } ∧
    mkTransform "none" = { hflip := false, vflip := false } := by
  decide

/-- C9: `get_local_ip` is total over every outcome of the socket attempt:
it returns the socket's local address on success and the literal
`"127.0.0.1"` when the attempt raises, never propagating the exception. -/
theorem get_local_ip_total (attempt : Except String String) :
    (∃ ip, attempt = Except.ok ip ∧ get_local_ip attempt = ip) ∨
    (∃ e, attempt = Except.error e ∧ get_local_ip attempt = "127.0.0.1") := by
  cases attempt with
  | ok ip => exact Or.inl ⟨ip, rfl, rfl⟩
  | error e => exact Or.inr ⟨e, rfl, rfl⟩

/-- C10: the `HTML_TEMPLATE` constant is fixed at module load from the
startup contents of the template file and no event of a run (publishes or
requests) ever changes it, so every `GET /index.html` answered during one
process run has the same body — the encoding of the startup-loaded
template — and the whole response is identical across any two requests at
any two points of the run, whatever happened to the file on disk since. -/
theorem html_template_constant (tmplFile : Option String)
    (es es2 : List Event) (env env2 : GetEnv) :
    (run (initProc tmplFile) es).htmlTemplate =
      (load_html_template "index.html" tmplFile).1 ∧
    (do_GET (run (initProc tmplFile) es).htmlTemplate env "/index.html").1.body =
      encodeStr (load_html_template "index.html" tmplFile).1 ∧
    (do_GET (run (initProc tmplFile) es).htmlTemplate env "/index.html").1 =
      (do_GET (run (initProc tmplFile) es2).htmlTemplate env2 "/index.html").1 := by
  have h1 := run_htmlTemplate es (initProc tmplFile)
  have h2 := run_htmlTemplate es2 (initProc tmplFile)
  refine ⟨by rw [h1]; exact rfl, ?_, ?_⟩
  · rw [h1, do_GET_index]
    exact rfl
  · rw [h1, h2, do_GET_index, do_GET_index]
